import Mathlib

/-!
Shallow embedding of the profile-directory application (`src/app.py`):
the record loader (`load_data`), the photo resolver (`get_image_path`,
`get_base64_image_src`) and the filtering logic of `main`.

Python string primitives used by the source are translated explicitly on
`List Char` so that every definition is executable and kernel-reducible:
`pyLower` is `str.lower` (ASCII range, which covers every input considered
here), `pyStrip` is `str.strip`, `firstSpaceToken` is `s.split(' ')[0]`,
`replUnderscore` is `s.replace('_', ' ')`, and `containsChars` is the
Python substring test `needle in hay`.

External collaborators (the filesystem, the PIL decoder, the EXIF reader,
the PNG encoder, base64) are oracle fields of an environment structure;
an oracle returning `none` stands for the corresponding Python call
raising, which the source catches with `try/except`.
-/

namespace WC

/-! ### Python string primitives -/

/-- Python `str.lower` (ASCII case mapping, as used on the inputs of this app). -/
def pyLower (s : String) : String := ⟨s.data.map Char.toLower⟩

/-- Python `str.strip`: drop whitespace from both ends. -/
def pyStrip (s : String) : String :=
  ⟨((s.data.dropWhile Char.isWhitespace).reverse.dropWhile Char.isWhitespace).reverse⟩

/-- Model of `f.read(n)` on a text file: the leading `n` characters. -/
def takeChars (n : Nat) (s : String) : String := ⟨s.data.take n⟩

/-- Python `s.split(' ')[0]`: the longest space-free leading run.  Note that the
separator is the single space character, not general whitespace. -/
def firstSpaceToken (s : String) : String := ⟨s.data.takeWhile (fun c => c != ' ')⟩

/-- Python `s.replace('_', ' ')` for the single-character pattern. -/
def replUnderscore (s : String) : String :=
  ⟨s.data.map (fun c => if c = '_' then ' ' else c)⟩

/-- Leading-match test used by `containsChars`. -/
def startsWithChars : List Char → List Char → Bool
  | [], _ => true
  | _ :: _, [] => false
  | a :: as, b :: bs => a == b && startsWithChars as bs

/-- Python `needle in hay` substring containment on character lists. -/
def containsChars (needle : List Char) : List Char → Bool
  | [] => startsWithChars needle []
  | b :: bs => startsWithChars needle (b :: bs) || containsChars needle bs

/-! ### Images and EXIF orientation (app.py lines 109-123) -/

/-- A decoded raster image as a grid of pixel values. -/
abbrev PImage := List (List Nat)

/-- PIL `img.rotate(90, expand=True)`: 90 degrees counterclockwise. -/
def rotate90 (img : PImage) : PImage := (List.transpose img).reverse

/-- PIL `img.rotate(180, expand=True)`. -/
def rotate180 (img : PImage) : PImage := (img.map List.reverse).reverse

/-- PIL `img.rotate(270, expand=True)`: 270 degrees counterclockwise. -/
def rotate270 (img : PImage) : PImage := (List.transpose img).map List.reverse

/-- The EXIF tag number whose `ExifTags.TAGS` name is `'Orientation'`. -/
def orientationTag : Nat := 274

/-- The `for tag, value in exif.items()` loop with its `break`: the value of
the first pair whose tag is the orientation tag. -/
def findOrientation : List (Nat × Nat) → Option Nat
  | [] => none
  | (t, v) :: rest => if t = orientationTag then some v else findOrientation rest

/-- The `if value == 3 / 6 / 8` ladder of `get_base64_image_src`. -/
def rotateByCode (v : Nat) (img : PImage) : PImage :=
  if v = 3 then rotate180 img
  else if v = 6 then rotate270 img
  else if v = 8 then rotate90 img
  else img

/-- The whole EXIF-orientation fix: `none` for the exif dictionary models
both a missing `_getexif` attribute and `_getexif()` returning `None`. -/
def fixOrientation (exif : Option (List (Nat × Nat))) (img : PImage) : PImage :=
  match exif with
  | none => img
  | some items =>
    match findOrientation items with
    | none => img
    | some v => rotateByCode v img

/-! ### The photo resolver (app.py lines 70-132) -/

/-- The external world of the resolver: directory listing, `os.path.exists`,
the PIL decode of a path, its EXIF data, PNG re-encoding and base64.
A `none` from `decode` or `pngEncode` models the library call raising. -/
structure Env where
  photosDir : Option (List String)
  pathExists : String → Bool
  decode : String → Option PImage
  exifOf : String → Option (List (Nat × Nat))
  pngEncode : PImage → Option String
  b64encode : String → String

/-- The matching key `name.strip().split(' ')[0].lower()` (app.py line 76). -/
def firstNameToken (name : String) : String :=
  pyLower (firstSpaceToken (pyStrip name))

/-- Model of `get_image_path`: first directory entry whose lowercased filename
contains the first-name token; `none` on empty token, missing directory
or no match. -/
def get_image_path (env : Env) (name : String) : Option String :=
  let first_name := firstNameToken name
  if first_name = "" then none
  else
    match env.photosDir with
    | none => none
    | some files =>
      (files.find? (fun fn => containsChars first_name.data (pyLower fn).data)).map
        (fun fn => "photos/" ++ fn)

/-- The placeholder data URL of `get_base64_image_src`. -/
def placeholder_url : String := "https://placehold.co/300x400/CCCCCC/888888?text=No+Photo"

/-- Model of `get_base64_image_src`: placeholder on a missing/failed image, else a
PNG data URL of the orientation-corrected decode. -/
def get_base64_image_src (env : Env) (image_path : Option String) : String :=
  match image_path with
  | none => placeholder_url
  | some p =>
    if p = "" ∨ env.pathExists p = false then placeholder_url
    else
      match env.decode p with
      | none => placeholder_url
      | some img0 =>
        match env.pngEncode (fixOrientation (env.exifOf p) img0) with
        | none => placeholder_url
        | some png => "data:image/png;base64," ++ env.b64encode png

/-- One record's photo resolution as performed by `main`. -/
def resolve (env : Env) (name : String) : String :=
  get_base64_image_src env (get_image_path env name)

/-- The per-record resolution loop of `main` over a sequence of names. -/
def renderAll (env : Env) (names : List String) : List String :=
  names.map (resolve env)

/-! ### The record loader (app.py lines 17-68) -/

/-- The terminal outcomes of `load_data` that end in `st.error` plus an
empty result.  `parseFailure` is the `except` branch that catches a
sniffer or `read_csv` exception ("Error loading CSV data"). -/
inductive LoadError where
  | sourceMissing
  | sourceEmpty
  | parseFailure
  | missingColumn (field : String)
deriving DecidableEq

instance {ε α : Type} [DecidableEq ε] [DecidableEq α] : DecidableEq (Except ε α) :=
  fun x y =>
    match x, y with
    | .error a, .error b => decidable_of_iff (a = b) (by simp)
    | .ok a, .ok b => decidable_of_iff (a = b) (by simp)
    | .error _, .ok _ => isFalse (by simp)
    | .ok _, .error _ => isFalse (by simp)

/-- A parsed table: column names and rows of cells.  `none` in a cell is a
pandas `NaN` (for instance an empty CSV field); `some s` is the `str()`
rendering of the cell value. -/
abbrev Table := List String × List (List (Option String))

/-- The loader's external world: the source file contents (`none` when the
file does not exist), `csv.Sniffer().sniff` on the sample (`none` when the
sniffer raises), `pd.read_csv` with a delimiter (`none` when it raises). -/
structure SrcEnv where
  contents : Option String
  sniff : String → Option Char
  parse : Char → String → Option Table

/-- Dictionary `required_cols_map` of `load_data`, in dictionary insertion order. -/
def requiredColsMap : List (String × String) :=
  [("name", "Name"), ("birthday", "Birthday"),
   ("town/county", "Town/County"), ("country", "Country")]

/-- Header normalization `col.strip().replace('_', ' ')` (app.py line 50). -/
def normalizeHeader (h : String) : String := replUnderscore (pyStrip h)

/-- The required-column loop of `load_data`: for each required field, find
the first column whose lowercase equals the key (error on failure), and
rename every occurrence of the found column to the canonical name. -/
def fixColumns : List (String × String) → List String → Except LoadError (List String)
  | [], cols => .ok cols
  | (lowerName, target) :: rest, cols =>
    match cols.find? (fun c => pyLower c == lowerName) with
    | none => .error (.missingColumn target)
    | some found =>
      fixColumns rest
        (if found = target then cols
         else cols.map (fun c => if c = found then target else c))

/-- pandas `.astype(str)` on a cell: `NaN` becomes the string `"nan"`. -/
def astypeStr (cell : Option String) : Option String := some (cell.getD "nan")

/-- pandas `.fillna(d)` on a cell: only a `NaN` cell is replaced. -/
def fillna (d : String) (cell : Option String) : Option String := some (cell.getD d)

/-- Line 67's `df['Name'].astype(str).fillna('Unknown Profile')` applied to one cell
(app.py line 67). -/
def coerceName (cell : Option String) : Option String :=
  fillna "Unknown Profile" (astypeStr cell)

/-- The Name-column coercion of app.py line 67 applied to every row. -/
def fixNameColumn (cols : List String) (rows : List (List (Option String))) :
    List (List (Option String)) :=
  let idx := cols.findIdx (fun c => c == "Name")
  rows.map (fun r => r.set idx (coerceName (r.getD idx none)))

/-- Model of `load_data`: existence check, 1024-character sample, emptiness check,
delimiter sniffing (the `else csv.excel()` comma branch is kept although
its guard can no longer be false at that point), parse, column
normalization and Name coercion. -/
def load_data (env : SrcEnv) : Except LoadError Table :=
  match env.contents with
  | none => .error .sourceMissing
  | some content =>
    let sample := takeChars 1024 content
    if pyStrip sample = "" then .error .sourceEmpty
    else
      match (if pyStrip sample ≠ "" then env.sniff sample else some ',') with
      | none => .error .parseFailure
      | some delim =>
        match env.parse delim content with
        | none => .error .parseFailure
        | some (headers, rows) =>
          match fixColumns requiredColsMap (headers.map normalizeHeader) with
          | .error e => .error e
          | .ok cols => .ok (cols, fixNameColumn cols rows)

/-! ### The filter logic of `main` (app.py lines 286-306) -/

/-- One profile row as consumed by `main`. -/
structure Profile where
  name : String
  birthday : String
  town : String
  country : String
deriving DecidableEq

/-- The concatenation `' '.join([str(Name), str(Birthday), str(Town/County), str(Country)])`. -/
def joinFields (p : Profile) : String :=
  p.name ++ " " ++ p.birthday ++ " " ++ p.town ++ " " ++ p.country

/-- The filtering block of `main`: lowercase the query, apply the
exact-match country filter unless the sentinel `'All'` is selected, then
keep rows whose lowercased joined fields contain the query. -/
def applyFilters (ps : List Profile) (rawQuery selectedCountry : String) : List Profile :=
  let searchQuery := pyLower rawQuery
  let ps1 :=
    if selectedCountry ≠ "All" then ps.filter (fun p => p.country == selectedCountry)
    else ps
  if searchQuery ≠ "" then
    ps1.filter (fun p => containsChars searchQuery.data (pyLower (joinFields p)).data)
  else ps1

/-- pandas `Series.unique()`: distinct values in first-occurrence order. -/
def uniqueKeepFirst (l : List String) : List String :=
  l.foldl (fun acc c => if acc.contains c then acc else acc ++ [c]) []

/-- Python string `<=`: lexicographic on code points. -/
def charListLe : List Char → List Char → Bool
  | [], _ => true
  | _ :: _, [] => false
  | a :: as, b :: bs => if a < b then true else if a = b then charListLe as bs else false

/-- One insertion step of a stable insertion sort. -/
def insertSorted (s : String) : List String → List String
  | [] => [s]
  | t :: ts => if charListLe s.data t.data then s :: t :: ts else t :: insertSorted s ts

/-- Python `sorted` on strings. -/
def sortStrings (l : List String) : List String := l.foldr insertSorted []

/-- The dropdown list `['All'] + sorted(df['Country'].unique().tolist())` (line 289). -/
def distinctCountries (ps : List Profile) : List String :=
  "All" :: sortStrings (uniqueKeepFirst (ps.map (fun p => p.country)))

/-! ### Concrete scenario data -/

/-- A 2x2 synthetic test image with four distinct pixels. -/
def testImg : PImage := [[1, 2], [3, 4]]

/-- Row "Ann Ng" / "United Kingdom" from the end-to-end scenario. -/
def annP : Profile := ⟨"Ann Ng", "1 Jan", "London", "United Kingdom"⟩

/-- Row "Ben Oyelaran" / "Nigeria" from the end-to-end scenario. -/
def benP : Profile := ⟨"Ben Oyelaran", "2 Feb", "Lagos", "Nigeria"⟩

/-- Row "Cee Wu" / "united kingdom" (lowercase variant) from the scenario. -/
def ceeP : Profile := ⟨"Cee Wu", "3 Mar", "Leeds", "united kingdom"⟩

/-- The three-row source of the end-to-end scenario. -/
def scenarioProfiles : List Profile := [annP, benP, ceeP]

/-- A source whose Town/County column is spelled `Town_County`. -/
def envTownCounty : SrcEnv :=
  { contents := some "Name,Birthday,Town_County,Country\nAnn,1,2,UK\n"
  , sniff := fun _ => some ','
  , parse := fun _ _ =>
      some (["Name", "Birthday", "Town_County", "Country"],
            [[some "Ann", some "1", some "2", some "UK"]]) }

/-- A well-formed source whose single row has an empty (NaN) Name cell. -/
def envNameBug : SrcEnv :=
  { contents := some "Name,Birthday,Town/County,Country\n,1 Jan,X,Y\n"
  , sniff := fun _ => some ','
  , parse := fun _ _ =>
      some (["Name", "Birthday", "Town/County", "Country"],
            [[none, some "1 Jan", some "X", some "Y"]]) }

/-- A single-column source on which the delimiter sniffer raises (the real
`csv.Sniffer` raises `Could not determine delimiter` on this sample), while
a comma parse of the same contents would succeed. -/
def envSniffFail : SrcEnv :=
  { contents := some "ab\ncd\n"
  , sniff := fun _ => none
  , parse := fun d _ =>
      if d = ',' then
        some (["Name", "Birthday", "Town/County", "Country"],
              [[some "ab", some "x", some "y", some "z"]])
      else none }

/-- An existing source file holding only whitespace. -/
def envBlank : SrcEnv :=
  { contents := some " \n\t  ", sniff := fun _ => some ',', parse := fun _ _ => none }

/-- A photo directory containing only `ann.jpg`, with a failing decoder. -/
def envAnnJpg : Env :=
  { photosDir := some ["ann.jpg"]
  , pathExists := fun _ => true
  , decode := fun _ => none
  , exifOf := fun _ => none
  , pngEncode := fun _ => none
  , b64encode := fun s => s }

/-! ### Claim theorems -/

/-- C1: For every image carrying an EXIF orientation code, the resolver
applies exactly the fixed mapping: code 3 rotates 180 degrees, code 6
rotates 270 degrees, code 8 rotates 90 degrees, any other code or an
absent code leaves the image unrotated; and on a synthetic test image each
of the three rotating codes produces an output distinct from the unrotated
image (and from the two other rotations). -/
theorem c1_orientation_mapping :
    (∀ (items : List (Nat × Nat)) (v : Nat) (img : PImage),
      findOrientation items = some v →
        fixOrientation (some items) img =
          if v = 3 then rotate180 img
          else if v = 6 then rotate270 img
          else if v = 8 then rotate90 img
          else img) ∧
    (∀ (items : List (Nat × Nat)) (img : PImage),
      findOrientation items = none → fixOrientation (some items) img = img) ∧
    (∀ img : PImage, fixOrientation none img = img) ∧
    rotate180 testImg ≠ testImg ∧ rotate270 testImg ≠ testImg ∧
    rotate90 testImg ≠ testImg ∧ rotate180 testImg ≠ rotate270 testImg ∧
    rotate180 testImg ≠ rotate90 testImg ∧ rotate270 testImg ≠ rotate90 testImg := by
  refine ⟨?_, ?_, ?_, ?_, ?_, ?_, ?_, ?_, ?_⟩
  · intro items v img h
    simp [fixOrientation, h, rotateByCode]
  · intro items img h
    simp [fixOrientation, h]
  · intro img
    rfl
  all_goals decide

/-- C1 witness: A concrete EXIF dictionary carrying orientation code 3
makes the resolver rotate the synthetic image by 180 degrees. -/
theorem c1_orientation_mapping_witness :
    fixOrientation (some [(274, 3)]) testImg = rotate180 testImg := by
  have h := c1_orientation_mapping.1 [(274, 3)] 3 testImg (by decide)
  simpa using h

/-- The matching key as the claim words it: the lowercased first
*whitespace*-delimited token of the display name.  This follows the
claim's words, to be compared with `firstNameToken`, which the source
computes by splitting on the space character only. -/
def specFirstNameToken (s : String) : String :=
  pyLower ⟨(pyStrip s).data.takeWhile (fun c => !c.isWhitespace)⟩

/-- C2 counterexample: For the display name `"Ann\tNg"` (a tab between
the words) and the directory `["ann.jpg"]`, the claim's whitespace-token
algorithm yields token `"ann"`, which is contained in `"ann.jpg"`, so the
claim demands a match; the code splits on the space character only, keeps
the token `"ann\tng"`, and finds no match, returning the placeholder. -/
theorem c2_counterexample :
    get_image_path envAnnJpg "Ann\tNg" = none ∧
    firstNameToken "Ann\tNg" = "ann\tng" ∧
    specFirstNameToken "Ann\tNg" = "ann" ∧
    containsChars "ann".data (pyLower "ann.jpg").data = true := by
  refine ⟨by decide, by decide, by decide, by decide⟩

/-- C2 amended: Photo resolution computes the lowercased first
*space*-delimited token of the trimmed name (other whitespace characters
are not separators), fails to a placeholder when that token is empty or
the directory does not exist, and otherwise returns the first directory
entry, in listing order, whose lowercased filename contains the token as
a substring anywhere; if no entry matches, it returns a placeholder. -/
theorem c2_image_path_amended (env : Env) (name : String) :
    (firstNameToken name = "" → get_image_path env name = none) ∧
    (env.photosDir = none → get_image_path env name = none) ∧
    (∀ files f, env.photosDir = some files → get_image_path env name = some f →
      ∃ fn l₁ l₂, f = "photos/" ++ fn ∧ files = l₁ ++ fn :: l₂ ∧
        containsChars (firstNameToken name).data (pyLower fn).data = true ∧
        ∀ g ∈ l₁, containsChars (firstNameToken name).data (pyLower g).data = false) ∧
    (∀ files, env.photosDir = some files →
      (∀ g ∈ files, containsChars (firstNameToken name).data (pyLower g).data = false) →
      get_image_path env name = none) := by
  refine ⟨?_, ?_, ?_, ?_⟩
  · intro h
    simp [get_image_path, h]
  · intro h
    by_cases ht : firstNameToken name = ""
    · simp [get_image_path, ht]
    · simp [get_image_path, ht, h]
  · intro files f hdir hsome
    by_cases ht : firstNameToken name = ""
    · simp [get_image_path, ht] at hsome
    · simp only [get_image_path, ht, if_false, hdir] at hsome
      rw [Option.map_eq_some'] at hsome
      obtain ⟨fn, hfind, hf⟩ := hsome
      rw [List.find?_eq_some] at hfind
      obtain ⟨hp, as, bs, hsplit, hpre⟩ := hfind
      refine ⟨fn, as, bs, hf.symm, hsplit, hp, ?_⟩
      intro g hg
      have := hpre g hg
      simpa using this
  · intro files hdir hnone
    by_cases ht : firstNameToken name = ""
    · simp [get_image_path, ht]
    · simp only [get_image_path, ht, if_false, hdir]
      rw [Option.map_eq_none', List.find?_eq_none]
      intro g hg
      simp [hnone g hg]

/-- C2 witness: For the name `"Ann Ng"` and the directory
`["ann.jpg"]`, the resolver's result decomposes as the first matching
entry in listing order. -/
theorem c2_image_path_amended_witness :
    ∃ fn l₁ l₂, "photos/ann.jpg" = "photos/" ++ fn ∧
      ("ann.jpg" :: []) = l₁ ++ fn :: l₂ ∧
      containsChars (firstNameToken "Ann Ng").data (pyLower fn).data = true ∧
      ∀ g ∈ l₁, containsChars (firstNameToken "Ann Ng").data (pyLower g).data = false :=
  (c2_image_path_amended envAnnJpg "Ann Ng").2.2.1 ["ann.jpg"] "photos/ann.jpg"
    rfl (by decide)

/-- C3: Photo resolution never propagates a failure past its boundary:
when no path was matched, when the matched path does not exist, and when
the decoder fails on the matched path (a corrupt or non-image file), the
resolver returns the placeholder; its output is always either the
placeholder or a data URL, and the per-record rendering loop produces one
output per record, so one bad photo never aborts subsequent records. -/
theorem c3_resolver_no_raise (env : Env) (name : String) :
    (get_image_path env name = none → resolve env name = placeholder_url) ∧
    (∀ p, get_image_path env name = some p → env.pathExists p = false →
      resolve env name = placeholder_url) ∧
    (∀ p, get_image_path env name = some p → env.decode p = none →
      resolve env name = placeholder_url) ∧
    (resolve env name = placeholder_url ∨
      ∃ s, resolve env name = "data:image/png;base64," ++ s) ∧
    (∀ names : List String, (renderAll env names).length = names.length) := by
  refine ⟨?_, ?_, ?_, ?_, ?_⟩
  · intro h
    simp [resolve, h, get_base64_image_src]
  · intro p hp hex
    simp [resolve, hp, get_base64_image_src, hex]
  · intro p hp hdec
    by_cases hcond : (p = "" ∨ env.pathExists p = false)
    · simp [resolve, hp, get_base64_image_src, hcond]
    · simp [resolve, hp, get_base64_image_src, hcond, hdec]
  · cases hgip : get_image_path env name with
    | none => left; simp [resolve, hgip, get_base64_image_src]
    | some p =>
      by_cases hcond : (p = "" ∨ env.pathExists p = false)
      · left; simp [resolve, hgip, get_base64_image_src, hcond]
      · cases hdec : env.decode p with
        | none => left; simp [resolve, hgip, get_base64_image_src, hcond, hdec]
        | some img =>
          cases henc : env.pngEncode (fixOrientation (env.exifOf p) img) with
          | none =>
            left; simp [resolve, hgip, get_base64_image_src, hcond, hdec, henc]
          | some png =>
            right
            exact ⟨env.b64encode png, by
              simp [resolve, hgip, get_base64_image_src, hcond, hdec, henc]⟩
  · intro names
    simp [renderAll]

/-- C3 witness: With a directory matching `ann.jpg` but a decoder that
fails on it (a corrupt file), resolving `"Ann Ng"` yields the placeholder. -/
theorem c3_resolver_no_raise_witness :
    resolve envAnnJpg "Ann Ng" = placeholder_url :=
  (c3_resolver_no_raise envAnnJpg "Ann Ng").2.2.1 "photos/ann.jpg" (by decide) rfl

/-- Renaming a found column to its canonical name never changes the
multiset of lowercased column names, because a column is only found when
its lowercase equals the key and every canonical name lowercases to its
key.  Hence the required-column loop errors exactly when some required
field has no column whose lowercase equals its key. -/
theorem fixColumns_error_iff (reqs : List (String × String)) (cols : List String)
    (hreq : ∀ p ∈ reqs, pyLower p.2 = p.1) :
    (∃ f, fixColumns reqs cols = .error (.missingColumn f)) ↔
      ∃ p ∈ reqs, ∀ c ∈ cols, pyLower c ≠ p.1 := by
  induction reqs generalizing cols with
  | nil => simp [fixColumns]
  | cons kt rest ih =>
    obtain ⟨k, t⟩ := kt
    have hkt : pyLower t = k := hreq (k, t) (List.mem_cons_self _ _)
    have hrest : ∀ p ∈ rest, pyLower p.2 = p.1 := fun p hp =>
      hreq p (List.mem_cons_of_mem _ hp)
    cases hfind : cols.find? (fun c => pyLower c == k) with
    | none =>
      apply iff_of_true
      · exact ⟨t, by simp [fixColumns, hfind]⟩
      · refine ⟨(k, t), List.mem_cons_self _ _, ?_⟩
        intro c hc
        have := List.find?_eq_none.mp hfind c hc
        simpa using this
    | some found =>
      have hfound_mem : found ∈ cols := List.mem_of_find?_eq_some hfind
      have hfound_eq : pyLower found = k := by
        have := List.find?_some hfind
        simpa using this
      have hstep : fixColumns ((k, t) :: rest) cols =
          fixColumns rest
            (if found = t then cols
             else cols.map (fun c => if c = found then t else c)) := by
        simp [fixColumns, hfind]
      have hmap : (if found = t then cols
          else cols.map (fun c => if c = found then t else c)).map pyLower =
            cols.map pyLower := by
        split
        · rfl
        · rw [List.map_map]
          apply List.map_congr_left
          intro c _
          by_cases hcf : c = found
          · simp [Function.comp, hcf, hkt, hfound_eq]
          · simp [Function.comp, hcf]
      have hforall : ∀ (l : List String) (k' : String),
          (∀ c ∈ l, pyLower c ≠ k') ↔ ∀ x ∈ l.map pyLower, x ≠ k' := by
        intro l k'
        constructor
        · rintro h x hx
          obtain ⟨c, hc, rfl⟩ := List.mem_map.mp hx
          exact h c hc
        · intro h c hc
          exact h _ (List.mem_map_of_mem _ hc)
      have hcond : ∀ k' : String,
          (∀ c ∈ (if found = t then cols
            else cols.map (fun c => if c = found then t else c)), pyLower c ≠ k') ↔
          (∀ c ∈ cols, pyLower c ≠ k') := by
        intro k'
        rw [hforall, hforall, hmap]
      rw [hstep, ih _ hrest]
      constructor
      · rintro ⟨p, hp, hcols'⟩
        exact ⟨p, List.mem_cons_of_mem _ hp, (hcond p.1).mp hcols'⟩
      · rintro ⟨p, hp, hcolsAll⟩
        rcases List.mem_cons.mp hp with rfl | hp'
        · exact absurd hfound_eq (hcolsAll found hfound_mem)
        · exact ⟨p, hp', (hcond p.1).mpr hcolsAll⟩

/-- C4 counterexample: A source whose headers are exactly
`Name, Birthday, Town_County, Country` fails the load with
`MissingColumn "Town/County"`: the header `Town_County` normalizes to
`"Town County"`, whose lowercase differs from `"town/county"`, so
contrary to the claim it does not match the canonical field. -/
theorem c4_counterexample :
    load_data envTownCounty = .error (.missingColumn "Town/County") ∧
    normalizeHeader "Town_County" = "Town County" ∧
    pyLower "Town County" ≠ "town/county" := by
  refine ⟨by decide, by decide, by decide⟩

/-- C4 amended: Given a source that exists, is non-blank and parses,
the load fails with a `MissingColumn` error if and only if some canonical
field among Name, Birthday, Town/County, Country has no source header
matching it after trimming surrounding whitespace, replacing underscores
with spaces and comparing case-insensitively.  Headers `"NAME"` and
`" name "` match the Name field canonically, but `"Town_County"` does
*not* match Town/County (it normalizes to `"Town County"`); a missing
required field fails the whole load regardless of the other fields — no
records are silently dropped. -/
theorem c4_missing_column_amended (env : SrcEnv) (content : String) (delim : Char)
    (headers : List String) (rows : List (List (Option String)))
    (hc : env.contents = some content)
    (hne : ¬ pyStrip (takeChars 1024 content) = "")
    (hsn : env.sniff (takeChars 1024 content) = some delim)
    (hp : env.parse delim content = some (headers, rows)) :
    ((∃ f, load_data env = .error (.missingColumn f)) ↔
      ∃ p ∈ requiredColsMap, ∀ h ∈ headers, pyLower (normalizeHeader h) ≠ p.1) ∧
    pyLower (normalizeHeader "NAME") = "name" ∧
    pyLower (normalizeHeader " name ") = "name" ∧
    pyLower (normalizeHeader "Town_County") ≠ "town/county" := by
  refine ⟨?_, by decide, by decide, by decide⟩
  have hload : load_data env =
      (match fixColumns requiredColsMap (headers.map normalizeHeader) with
       | .error e => .error e
       | .ok cols => .ok (cols, fixNameColumn cols rows)) := by
    simp only [load_data, hc, hne, hsn, hp, if_neg, not_false_iff, ne_eq, if_true,
      not_false_eq_true, if_false]
  have hiff := fixColumns_error_iff requiredColsMap (headers.map normalizeHeader)
    (by decide)
  rw [hload]
  simp only [List.forall_mem_map] at hiff
  constructor
  · rintro ⟨f, hf⟩
    cases hfix : fixColumns requiredColsMap (headers.map normalizeHeader) with
    | ok cols => rw [hfix] at hf; simp at hf
    | error e =>
      rw [hfix] at hf
      simp only [Except.error.injEq] at hf
      exact hiff.mp ⟨f, by rw [hfix, hf]⟩
  · intro hmiss
    obtain ⟨f, hf⟩ := hiff.mpr hmiss
    exact ⟨f, by rw [hf]⟩

/-- C4 witness: The amended equivalence instantiated on the concrete
`Town_County` source: the load does fail with a `MissingColumn`, and the
right side of the equivalence identifies the unmatched field. -/
theorem c4_missing_column_amended_witness :
    ((∃ f, load_data envTownCounty = .error (.missingColumn f)) ↔
      ∃ p ∈ requiredColsMap, ∀ h ∈ ["Name", "Birthday", "Town_County", "Country"],
        pyLower (normalizeHeader h) ≠ p.1) ∧
    pyLower (normalizeHeader "NAME") = "name" ∧
    pyLower (normalizeHeader " name ") = "name" ∧
    pyLower (normalizeHeader "Town_County") ≠ "town/county" :=
  c4_missing_column_amended envTownCounty
    "Name,Birthday,Town_County,Country\nAnn,1,2,UK\n" ','
    ["Name", "Birthday", "Town_County", "Country"]
    [[some "Ann", some "1", some "2", some "UK"]]
    rfl (by decide) rfl rfl

/-- C5 counterexample: On a source whose sample makes the delimiter
sniffer raise (the real `csv.Sniffer` raises `Could not determine
delimiter` on `"ab\ncd\n"`), the load fails with the caught-exception
error even though parsing the same contents with a comma delimiter would
have succeeded: there is no comma fallback. -/
theorem c5_counterexample :
    load_data envSniffFail = .error .parseFailure ∧
    (envSniffFail.parse ',' "ab\ncd\n").isSome = true := by
  refine ⟨by decide, by decide⟩

/-- C5 amended: For every non-empty source file, load infers the
field delimiter from a leading sample of at most 1024 characters; when
that detection fails, the raised error is caught and the load fails with
a load error (no records) — it does not fall back to a comma parse.  The
comma-dialect branch in the source is only reachable from a blank sample,
which the emptiness check has already excluded. -/
theorem c5_sniff_failure_amended (env : SrcEnv) (content : String)
    (hc : env.contents = some content)
    (hne : ¬ pyStrip (takeChars 1024 content) = "")
    (hsn : env.sniff (takeChars 1024 content) = none) :
    load_data env = .error .parseFailure ∧
    (takeChars 1024 content).data.length ≤ 1024 := by
  constructor
  · simp only [load_data, hc, hne, hsn, ne_eq, not_false_eq_true, if_true, if_false]
  · simp [takeChars]

/-- C5 witness: The amended statement instantiated on the concrete
sniffer-failure source. -/
theorem c5_sniff_failure_amended_witness :
    load_data envSniffFail = .error .parseFailure ∧
    (takeChars 1024 "ab\ncd\n").data.length ≤ 1024 :=
  c5_sniff_failure_amended envSniffFail "ab\ncd\n" rfl (by decide) rfl

/-- C6: Evaluation of the load at a row whose Name cell is missing
(an empty CSV field, `NaN` to pandas): because `astype(str)` runs before
`fillna('Unknown Profile')`, the missing name is loaded as the string
`"nan"` and the intended default label is never applied. -/
theorem c6_name_default_bug :
    load_data envNameBug =
      .ok (["Name", "Birthday", "Town/County", "Country"],
           [[some "nan", some "1 Jan", some "X", some "Y"]]) ∧
    coerceName none = some "nan" ∧
    ("nan" : String) ≠ "Unknown Profile" := by
  refine ⟨by decide, by decide, by decide⟩

/-- C10: For every input path, the image-resolution output has exactly
one of two shapes: the fixed placeholder URL, or a base64 data URL whose
payload is the PNG re-encoding of the orientation-corrected decoded image,
regardless of the original file format. -/
theorem c10_output_shape (env : Env) (ip : Option String) :
    get_base64_image_src env ip = placeholder_url ∨
    ∃ p img png, ip = some p ∧ env.decode p = some img ∧
      env.pngEncode (fixOrientation (env.exifOf p) img) = some png ∧
      get_base64_image_src env ip = "data:image/png;base64," ++ env.b64encode png := by
  cases ip with
  | none => left; rfl
  | some p =>
    by_cases hcond : (p = "" ∨ env.pathExists p = false)
    · left; simp [get_base64_image_src, hcond]
    · cases hdec : env.decode p with
      | none => left; simp [get_base64_image_src, hcond, hdec]
      | some img =>
        cases henc : env.pngEncode (fixOrientation (env.exifOf p) img) with
        | none => left; simp [get_base64_image_src, hcond, hdec, henc]
        | some png =>
          right
          exact ⟨p, img, png, rfl, hdec, henc,
            by simp [get_base64_image_src, hcond, hdec, henc]⟩

/-- C10 witness: the two-shape property instantiated on a concrete path
with a failing decoder. -/
theorem c10_output_shape_witness :
    get_base64_image_src envAnnJpg (some "photos/ann.jpg") = placeholder_url ∨
    ∃ p img png, (some "photos/ann.jpg" : Option String) = some p ∧
      envAnnJpg.decode p = some img ∧
      envAnnJpg.pngEncode (fixOrientation (envAnnJpg.exifOf p) img) = some png ∧
      get_base64_image_src envAnnJpg (some "photos/ann.jpg") =
        "data:image/png;base64," ++ envAnnJpg.b64encode png :=
  c10_output_shape envAnnJpg (some "photos/ann.jpg")

/-- The empty needle is contained in every haystack, like Python's
`'' in s`. -/
theorem containsChars_nil (hay : List Char) : containsChars [] hay = true := by
  cases hay with
  | nil => rfl
  | cons b bs => simp [containsChars, startsWithChars]

/-- With an empty search query the filter block reduces to the country
filter alone. -/
theorem applyFilters_no_query (ps : List Profile) (c : String) :
    applyFilters ps "" c =
      if c ≠ "All" then ps.filter (fun p => p.country == c) else ps := by
  have h0 : pyLower "" = "" := rfl
  simp [applyFilters, h0]

/-- C7 counterexample: No country normalization happens: the filter
`"United Kingdom"` over the three scenario rows returns only the Ann
record (not Ann and Cee as the claim states, because `"united kingdom"`
is compared verbatim), and the two whitespace/case variants stay two
distinct entries in the distinct-country list instead of collapsing. -/
theorem c7_counterexample :
    applyFilters scenarioProfiles "" "United Kingdom" = [annP] ∧
    applyFilters scenarioProfiles "" "United Kingdom" ≠ [annP, ceeP] ∧
    uniqueKeepFirst [" united kingdom ", "United Kingdom"] =
      [" united kingdom ", "United Kingdom"] ∧
    distinctCountries
        [⟨"A", "", "", " united kingdom "⟩, ⟨"B", "", "", "United Kingdom"⟩] =
      ["All", " united kingdom ", "United Kingdom"] := by
  refine ⟨by decide, by decide, by decide, by decide⟩

/-- C7 amended: Country values are used verbatim — neither trimmed
nor case-normalized — so variants differing only in case or surrounding
whitespace remain distinct entries in the distinct-country list; the
country filter keeps, in original order, exactly the rows whose country
equals the selected value exactly; on the three scenario rows the filter
`"United Kingdom"` returns only the Ann record. -/
theorem c7_country_filter_amended (ps : List Profile) (c : String) (p : Profile) :
    (p ∈ applyFilters ps "" c ↔ p ∈ ps ∧ (c = "All" ∨ p.country = c)) ∧
    (applyFilters ps "" c).Sublist ps ∧
    applyFilters scenarioProfiles "" "United Kingdom" = [annP] ∧
    distinctCountries
        [⟨"A", "", "", " united kingdom "⟩, ⟨"B", "", "", "United Kingdom"⟩] =
      ["All", " united kingdom ", "United Kingdom"] := by
  refine ⟨?_, ?_, by decide, by decide⟩
  · rw [applyFilters_no_query]
    by_cases hc : c = "All"
    · simp [hc]
    · simp only [ne_eq, hc, not_false_eq_true, if_true, List.mem_filter,
        beq_iff_eq]
      constructor
      · rintro ⟨hp, hcountry⟩
        exact ⟨hp, Or.inr hcountry⟩
      · rintro ⟨hp, hcase⟩
        rcases hcase with h | h
        · exact h.elim
        · exact ⟨hp, h⟩
  · rw [applyFilters_no_query]
    by_cases hc : c = "All"
    · simp [hc]
    · simp only [ne_eq, hc, not_false_eq_true, if_true]
      exact List.filter_sublist ps

/-- C7 witness: the amended membership equivalence instantiated on the
Ann record and the scenario rows. -/
theorem c7_country_filter_amended_witness :
    annP ∈ applyFilters scenarioProfiles "" "United Kingdom" ↔
      annP ∈ scenarioProfiles ∧
        ("United Kingdom" = "All" ∨ annP.country = "United Kingdom") :=
  (c7_country_filter_amended scenarioProfiles "United Kingdom" annP).1

/-- C8: For an existing source file whose contents hold no
non-whitespace character, the load fails with the explicit `SourceEmpty`
error; it never returns a zero-record success. -/
theorem c8_source_empty (env : SrcEnv) (content : String)
    (hc : env.contents = some content)
    (hw : ∀ ch ∈ content.data, ch.isWhitespace) :
    load_data env = .error .sourceEmpty := by
  have hsample : ∀ ch ∈ (takeChars 1024 content).data, ch.isWhitespace := by
    intro ch hch
    exact hw ch (List.mem_of_mem_take hch)
  have hstrip : pyStrip (takeChars 1024 content) = "" := by
    unfold pyStrip
    rw [List.dropWhile_eq_nil_iff.mpr hsample]
    rfl
  simp [load_data, hc, hstrip]

/-- C8 witness: A whitespace-only source file fails with
`SourceEmpty`. -/
theorem c8_source_empty_witness : load_data envBlank = .error .sourceEmpty :=
  c8_source_empty envBlank " \n\t  " rfl (by decide)

/-- C9: Filtering is pure: with the empty query and the `'All'`
country sentinel it returns the record set unchanged by value, and a
query contained in no record's lowercased concatenated display fields
returns the empty subset; the base set is never mutated (the model is a
pure function of it, mirroring the `df.copy()` in the source). -/
theorem c9_filter_pure (ps : List Profile) (q : String) :
    applyFilters ps "" "All" = ps ∧
    ((∀ p ∈ ps,
        containsChars (pyLower q).data (pyLower (joinFields p)).data = false) →
      applyFilters ps q "All" = []) := by
  constructor
  · rw [applyFilters_no_query]
    simp
  · intro hnone
    by_cases hq : pyLower q = ""
    · cases ps with
      | nil =>
        have h0 : pyLower "" = "" := rfl
        simp [applyFilters]
      | cons p ps' =>
        have h := hnone p (List.mem_cons_self _ _)
        rw [hq] at h
        have hd : ("" : String).data = [] := rfl
        rw [hd, containsChars_nil] at h
        simp at h
    · have h1 : applyFilters ps q "All" =
          ps.filter
            (fun p => containsChars (pyLower q).data (pyLower (joinFields p)).data) := by
        simp [applyFilters, hq]
      rw [h1, List.filter_eq_nil_iff]
      intro p hp
      simp [hnone p hp]

/-- C9 witness: A one-record set with the query `"zzz"` (contained in
no field) filters to the empty subset. -/
theorem c9_filter_pure_witness : applyFilters [annP] "zzz" "All" = [] :=
  (c9_filter_pure [annP] "zzz").2 (by decide)

end WC
